import Mathlib

/-!
Verification of the capability-bridge runtime (`src/runtime.rs`) of the
badtouch repository: the Lua value marshaller, the error channel, the
HTTP session/request store, and the catalog capabilities named by the
claims (`rand`, `sleep`, `execve`, `mysql_connect`, `ldap_search_bind`,
`http_request`, `http_send`, `last_err`, `byte_array`, `lua_bytes`).

Conventions of the embedding:
* Rust `f64` script numbers are modelled by `LuaNum`: NaN, signed
  infinity, or a finite rational.  Every finite `f64` is a (dyadic)
  rational; the operations the source performs on numbers (comparisons
  with `255.0` / `0.0`, the exact `fmod` with `1.0`, and the guarded
  `as u8` cast) are exact on rationals, so no rounding is lost.
* Rust `Result<T, Error>` becomes `Except String T` (we only ever need
  the message), machine integers become `Nat`/`Int` with explicit
  `% 2 ^ w` where the source wraps.
* External services (the LDAP server, the process spawner, the MySQL
  and HTTP transports, the RNG) are opaque collaborators in the source;
  handlers receive their outcomes as explicit arguments.
-/

namespace Badtouch

/-- Model of an `f64` script number: NaN, an infinity, or a finite
(dyadic) rational. -/
inductive LuaNum
  | nan : LuaNum
  | inf (neg : Bool) : LuaNum
  | finite (q : ℚ) : LuaNum
deriving DecidableEq

/-- `hlua::AnyLuaValue`: the dynamic script value union.  Byte strings
(`LuaAnyString`, bytes as naturals `< 256` by construction of the
producing operations) and text strings are distinct variants. -/
inductive AnyLuaValue
  | LuaNil
  | LuaBoolean (b : Bool)
  | LuaNumber (x : LuaNum)
  | LuaString (s : String)
  | LuaAnyString (bytes : List Nat)
  | LuaArray (entries : List (AnyLuaValue × AnyLuaValue))
  | LuaOther

/-- Rust `x <= c` on `f64` for a finite literal `c`: false on NaN,
decided by sign on infinities, exact on finite values. -/
def f64Le (x : LuaNum) (c : ℚ) : Bool :=
  match x with
  | .nan => false
  | .inf neg => neg
  | .finite q => q ≤ c

/-- Rust `x >= c` on `f64` for a finite literal `c`. -/
def f64Ge (x : LuaNum) (c : ℚ) : Bool :=
  match x with
  | .nan => false
  | .inf neg => !neg
  | .finite q => c ≤ q

/-- Rust `x % 1.0 == 0.0` on `f64`.  `fmod` is exact, so for a finite
value it is `0.0` exactly when the value is an integer; `NaN % 1.0` and
`inf % 1.0` are NaN, and `NaN == 0.0` is false. -/
def f64ModOneIsZero (x : LuaNum) : Bool :=
  match x with
  | .nan => false
  | .inf _ => false
  | .finite q => q.den = 1

/-- Rust `x as u8` on `f64` (saturating cast): NaN to 0, truncation
toward zero clamped to `[0, 255]` otherwise. -/
def f64AsU8 (x : LuaNum) : Nat :=
  match x with
  | .nan => 0
  | .inf neg => if neg then 0 else 255
  | .finite q => min 255 ⌊q⌋.toNat

/-- One element of the `LuaArray` branch of `byte_array`
(`runtime.rs:34-40`): a number passing the `<= 255.0 && >= 0.0 &&
% 1.0 == 0.0` guard is cast with `as u8`; any other number is "out of
range"; any non-number is an "unexpected type". -/
def luaElemToByte (v : AnyLuaValue) : Except String Nat :=
  match v with
  | .LuaNumber num =>
      if f64Le num 255 && f64Ge num 0 && f64ModOneIsZero num then
        .ok (f64AsU8 num)
      else
        .error "number is out of range"
  | _ => .error "unexpected type"

/-- `byte_array` (`runtime.rs:28-45`): converts a dynamic value to a
native byte sequence.  Accepts the opaque byte-string variant as-is,
text strings via their UTF-8 bytes, and arrays elementwise through
`luaElemToByte` (stopping at the first failing element, like
`collect::<Result<_>>`); every other variant is an "invalid type". -/
def byte_array (bytes : AnyLuaValue) : Except String (List Nat) :=
  match bytes with
  | .LuaAnyString bs => .ok bs
  | .LuaString s => .ok (s.toUTF8.toList.map (fun b => b.toNat))
  | .LuaArray entries => entries.mapM (fun kv => luaElemToByte kv.2)
  | _ => .error "invalid type"

/-- `lua_bytes` (`runtime.rs:47-50`): wraps a native byte sequence as
the opaque byte-string variant. -/
def lua_bytes (bytes : List Nat) : AnyLuaValue :=
  .LuaAnyString bytes

/-- C4: converting a byte sequence to a dynamic value and back
round-trips: `lua_bytes b` is the opaque byte-string variant (in
particular not the text-string variant), and `byte_array` on it
returns exactly `b`. -/
theorem C4_bytes_roundtrip (b : List Nat) :
    lua_bytes b = AnyLuaValue.LuaAnyString b ∧
    (∀ s, lua_bytes b ≠ AnyLuaValue.LuaString s) ∧
    byte_array (lua_bytes b) = .ok b := by
  refine ⟨rfl, ?_, rfl⟩
  intro s h
  cases h

/-- Closed witness for C4 at the byte sequence `[0, 255, 16]`. -/
theorem C4_bytes_roundtrip_witness :
    lua_bytes [0, 255, 16] = AnyLuaValue.LuaAnyString [0, 255, 16] ∧
    byte_array (lua_bytes [0, 255, 16]) = .ok [0, 255, 16] :=
  ⟨(C4_bytes_roundtrip [0, 255, 16]).1,
   (C4_bytes_roundtrip [0, 255, 16]).2.2⟩

/-- C5: a single-element numeric array `[n]` converts to the one-byte
sequence `[n]` exactly when the number is an integer in `[0, 255]`;
any other number (out of range, non-integral, NaN, infinite) fails
with the "number is out of range" conversion error, and a non-number
element fails with the "unexpected type" conversion error — never a
silent truncation. -/
theorem C5_single_element_array (k : AnyLuaValue) (x : LuaNum) :
    (∀ n : ℕ, n ≤ 255 → x = .finite n →
        byte_array (.LuaArray [(k, .LuaNumber x)]) = .ok [n]) ∧
    ((∀ n : ℕ, n ≤ 255 → x ≠ .finite n) →
        byte_array (.LuaArray [(k, .LuaNumber x)]) =
          .error "number is out of range") ∧
    (∀ v : AnyLuaValue, (∀ y, v ≠ .LuaNumber y) →
        byte_array (.LuaArray [(k, v)]) = .error "unexpected type") := by
  refine ⟨?_, ?_, ?_⟩
  · intro n hn hx
    subst hx
    have hle : f64Le (.finite (n : ℚ)) 255 = true := by
      simp only [f64Le, decide_eq_true_eq]
      exact_mod_cast hn
    have hge : f64Ge (.finite (n : ℚ)) 0 = true := by
      simp only [f64Ge, decide_eq_true_eq]
      positivity
    have hmod : f64ModOneIsZero (.finite (n : ℚ)) = true := by
      simp only [f64ModOneIsZero, Rat.den_natCast, decide_eq_true_eq]
    have hcast : f64AsU8 (.finite (n : ℚ)) = n := by
      simp only [f64AsU8, Int.floor_natCast, Int.toNat_natCast]
      omega
    simp [byte_array, List.mapM, List.mapM.loop, luaElemToByte, hle, hge,
      hmod, hcast]
  · intro hnot
    have hguard :
        (f64Le x 255 && f64Ge x 0 && f64ModOneIsZero x) = false := by
      match x with
      | .nan => rfl
      | .inf neg => cases neg <;> rfl
      | .finite q =>
        by_contra hq
        simp only [Bool.not_eq_false, Bool.and_eq_true, f64Le, f64Ge,
          f64ModOneIsZero, decide_eq_true_eq] at hq
        obtain ⟨⟨h255, h0⟩, hden⟩ := hq
        have hint : (q.num : ℚ) = q := Rat.coe_int_num_of_den_eq_one hden
        have hnum0 : 0 ≤ q.num := Rat.num_nonneg.mpr h0
        have hnum255 : q.num ≤ 255 := by
          have h : (q.num : ℚ) ≤ 255 := by rw [hint]; exact h255
          exact_mod_cast h
        have h1 : ((q.num.toNat : ℕ) : ℤ) = q.num := Int.toNat_of_nonneg hnum0
        have h2 : ((q.num.toNat : ℕ) : ℚ) = q := by
          rw [← hint]
          exact_mod_cast h1
        exact hnot q.num.toNat (by omega) (by rw [h2])
    simp [byte_array, List.mapM, List.mapM.loop, luaElemToByte, hguard]
  · intro v hv
    have : luaElemToByte v = .error "unexpected type" := by
      match v with
      | .LuaNumber y => exact absurd rfl (hv y)
      | .LuaNil | .LuaBoolean _ | .LuaString _ | .LuaAnyString _
      | .LuaArray _ | .LuaOther => rfl
    simp [byte_array, List.mapM, List.mapM.loop, this]

/-- Closed witness for C5 at concrete inputs: `[7]` converts to the
byte `7`, and `[NaN]` fails the conversion. -/
theorem C5_single_element_array_witness :
    byte_array (.LuaArray [(.LuaNil, .LuaNumber (.finite 7))]) = .ok [7] ∧
    byte_array (.LuaArray [(.LuaNil, .LuaNumber .nan)]) =
      .error "number is out of range" := by
  constructor
  · exact (C5_single_element_array .LuaNil (.finite 7)).1 7 (by norm_num)
      (by norm_num)
  · exact (C5_single_element_array .LuaNil .nan).2.1
      (fun n _ h => by cases h)

/-! ## Error Channel -/

/-- Modelled from the spec: the Error Slot of `ctx::State` (the
`ctx.rs` module is not under `src/`; only its callers in `runtime.rs`
are).  Per §3/§4.2 it holds at most one pending error message, is set
by any capability on failure, overwritten on the next write, and read
non-destructively. -/
structure ErrState where
  err : Option String
deriving DecidableEq

/-- Modelled from the spec: `setError(context, message)` stores the
message in the slot, overwriting any previous one. -/
def set_error (s : ErrState) (msg : String) : ErrState :=
  { s with err := some msg }

/-- Modelled from the spec: `lastError(context)` returns the stored
message without clearing it, or absence if none was ever set. -/
def last_error (s : ErrState) : Option String :=
  s.err

/-- `last_err` (`runtime.rs:206-213`): reads `state.last_error()` and
maps `Some msg` to the text string `msg` and `None` to nil; the state
is not modified. -/
def last_err (s : ErrState) : AnyLuaValue × ErrState :=
  (match last_error s with
   | some e => .LuaString e
   | none => .LuaNil,
   s)

/-- One capability call as the Error Slot sees it: a failing call
writes its message via `set_error` (every `Err` arm in `runtime.rs`
goes through `state.set_error`); a successful call never touches the
slot (no `Ok` arm in `runtime.rs` writes it). -/
inductive CapEvent
  | fail (msg : String)
  | succeed

/-- Effect of a sequence of capability calls on the Error Slot. -/
def runEvents (s : ErrState) : List CapEvent → ErrState
  | [] => s
  | .fail m :: rest => runEvents (set_error s m) rest
  | .succeed :: rest => runEvents s rest

/-- C6: `last_err` is non-destructive, yields nil when no error was
ever set, and no successful capability call clears or overwrites the
slot: after a failing call with message `m` followed by any sequence
of successful calls, reading still yields `m`. -/
theorem C6_error_slot (s : ErrState) (m : String) (tail : List CapEvent) :
    (last_err s).2 = s ∧
    (s.err = none → (last_err s).1 = .LuaNil) ∧
    ((∀ e ∈ tail, e = .succeed) →
      (last_err (runEvents (set_error s m) tail)).1 = .LuaString m) := by
  refine ⟨rfl, ?_, ?_⟩
  · intro h
    simp [last_err, last_error, h]
  · intro hall
    have hrun : runEvents (set_error s m) tail = set_error s m := by
      induction tail with
      | nil => rfl
      | cons e rest ih =>
        have he : e = .succeed := hall e (List.mem_cons_self e rest)
        subst he
        exact ih (fun e' he' => hall e' (List.mem_cons_of_mem _ he'))
    rw [hrun]
    rfl

/-- Closed witness for C6: a failure writing "boom" followed by one
successful call, read from a fresh slot. -/
theorem C6_error_slot_witness :
    (last_err ⟨none⟩).1 = AnyLuaValue.LuaNil ∧
    (last_err (runEvents (set_error ⟨none⟩ "boom") [.succeed])).1 =
      AnyLuaValue.LuaString "boom" := by
  constructor
  · exact (C6_error_slot ⟨none⟩ "boom" [.succeed]).2.1 rfl
  · exact (C6_error_slot ⟨none⟩ "boom" [.succeed]).2.2
      (fun e he => by simpa using he)

/-! ## mysql_connect -/

/-- `mysql_connect` (`runtime.rs:304-322`): attempts the connection
(the outcome of `mysql::Conn::new`, an external collaborator, is the
explicit first argument) and returns `Ok(true)` on success and
`Ok(false)` on failure.  The `State` argument is unused (`_state`):
no branch writes the Error Slot. -/
def mysql_connect (connOutcome : Except String Unit) (s : ErrState) :
    Except String Bool × ErrState :=
  match connOutcome with
  | .ok _ => (.ok true, s)
  | .error _ => (.ok false, s)

/-- C7: `mysql_connect` returns true on connection success and false
on failure; on failure it writes nothing to the Error Channel (the
diagnostic is dropped), so two different failures — authentication
rejected and host unreachable — produce identical observable
results. -/
theorem C7_mysql_connect (s : ErrState) (e e' : String) :
    mysql_connect (.ok ()) s = (.ok true, s) ∧
    mysql_connect (.error e) s = (.ok false, s) ∧
    mysql_connect (.error e) s = mysql_connect (.error e') s :=
  ⟨rfl, rfl, rfl⟩

/-! ## execve -/

/-- Outcome of a waited-on child process: an exit code, or termination
without one (e.g. killed by a signal, when `status.code()` is
`None`). -/
inductive ExitStatus
  | code (c : Int)
  | noCode

/-- `execve` (`runtime.rs:75-99`): spawns the program and waits (the
spawn outcome, an external collaborator, is the explicit first
argument).  A spawn failure or an exit without a code writes the Error
Slot and fails; an exit code — zero or not — is returned as the normal
result. -/
def execve (spawn : Except String ExitStatus) (s : ErrState) :
    Except String Int × ErrState :=
  match spawn with
  | .error e => (.error e, set_error s e)
  | .ok (.code c) => (.ok c, s)
  | .ok .noCode =>
      (.error "process didn't return exit code",
       set_error s "process didn't return exit code")

/-- C9: `execve` returns the child's exit code as a normal result
(non-zero included, Error Slot untouched), and fails — writing the
Error Channel — exactly when spawning fails or the process exits
without an exit code. -/
theorem C9_execve (s : ErrState) (c : Int) (e : String) :
    execve (.ok (.code c)) s = (.ok c, s) ∧
    execve (.error e) s = (.error e, set_error s e) ∧
    execve (.ok .noCode) s =
      (.error "process didn't return exit code",
       set_error s "process didn't return exit code") :=
  ⟨rfl, rfl, rfl⟩

/-! ## sleep -/

/-- Rust `n as u64` for `n : i32`: sign-extension, i.e. reduction of
the signed value modulo `2 ^ 64`. -/
def i32_as_u64 (n : Int) : Nat :=
  (n % 2 ^ 64).toNat

/-- `sleep` (`runtime.rs:429-434`): requests a sleep of `n as u64`
seconds and returns `0`.  The first component is the requested
duration in seconds, the second the script-visible return value. -/
def sleep (n : Int) : Nat × Int :=
  (i32_as_u64 n, 0)

/-- C10: for every negative `i32` argument `n`, `sleep n` neither
fails nor sleeps zero seconds: the cast to `u64` sign-extends, so the
requested duration is `2 ^ 64 + n` seconds. -/
theorem C10_sleep_negative (n : Int) (h1 : -2 ^ 31 ≤ n) (h2 : n < 0) :
    (sleep n).1 = (2 ^ 64 + n).toNat ∧ (sleep n).1 ≠ 0 ∧
    (sleep n).2 = 0 := by
  refine ⟨?_, ?_, rfl⟩
  · simp only [sleep, i32_as_u64]
    omega
  · simp only [sleep, i32_as_u64]
    omega

/-- Closed witness for C10 at `n = -1`: the requested duration is
`2 ^ 64 - 1` seconds. -/
theorem C10_sleep_negative_witness :
    (sleep (-1)).1 = (2 ^ 64 + -1).toNat ∧ (sleep (-1)).1 ≠ 0 ∧
    (sleep (-1)).2 = 0 :=
  C10_sleep_negative (-1) (by norm_num) (by norm_num)

/-! ## rand -/

/-- `rand` (`runtime.rs:367-372`): `(rng.next_u32() + min) % max` on
`u32` values.  The RNG output `r` is the explicit first argument; the
addition wraps modulo `2 ^ 32` (release-mode Rust), and `% 0` is a
mod-by-zero panic, modelled as `none`. -/
def rand (r min max : Nat) : Option Nat :=
  if max = 0 then none
  else some ((r + min) % 2 ^ 32 % max)

/-- C1 (code bug): the claim promises a result in `[min, max)` and no
failure for any converted arguments, `max = 0` included.  The code
violates both: with RNG output 15, `rand 15 10 20` returns `5`, which
is below `min = 10`; and `rand 0 5 0` is a mod-by-zero panic. -/
theorem C1_rand_bug :
    rand 15 10 20 = some 5 ∧ 5 < 10 ∧ rand 0 5 0 = none := by
  refine ⟨?_, by norm_num, rfl⟩
  norm_num [rand]

/-! ## HTTP session/request store -/

/-- Modelled from the spec: the option keys `http_request` recognizes
(§6: headers, query parameters, body payload, timeout, proxy,
TLS-verification toggle); `http::RequestOptions` is not under
`src/`. -/
def recognizedOptionKeys : List String :=
  ["headers", "query", "body", "timeout", "proxy", "ssl_verify"]

/-- A parsed, well-formed request configuration. -/
structure RequestOptions where
  opts : List (String × AnyLuaValue)

/-- Modelled from the spec: `RequestOptions::try_from` (in `http.rs`,
not under `src/`) parses the options mapping; a non-mapping value or
an unrecognized key is rejected as invalid options (§6). -/
def RequestOptions.try_from (v : AnyLuaValue) :
    Except String RequestOptions :=
  match v with
  | .LuaArray entries =>
      if entries.all (fun kv =>
          match kv.1 with
          | .LuaString k => recognizedOptionKeys.contains k
          | _ => false) then
        .ok ⟨entries.filterMap (fun kv =>
          match kv.1 with
          | .LuaString k => some (k, kv.2)
          | _ => none)⟩
      else
        .error "unrecognized option key"
  | _ => .error "options must be a mapping"

/-- A fully constructed, not-yet-sent request, keyed in the store. -/
structure PendingRequest where
  session : Nat
  method : String
  url : String
  options : RequestOptions

/-- Modelled from the spec: the Session/Request Store of `ctx::State`
(`ctx.rs` is not under `src/`).  Opaque string tokens are modelled as
naturals drawn from `counter`; `sessions` holds the live session
tokens and `requests` the pending requests keyed by request token. -/
structure HttpStore where
  sessions : List Nat
  requests : List (Nat × PendingRequest)
  counter : Nat

/-- Store well-formedness: every issued request token is below the
allocation counter, so the next token is fresh. -/
def HttpStore.WF (st : HttpStore) : Prop :=
  ∀ k ∈ st.requests.map Prod.fst, k < st.counter

/-- Errors of the session/request lifecycle (§4.4). -/
inductive HttpErr
  | UnknownSession
  | InvalidOptions (msg : String)
  | UnknownRequest
  | TransportError (msg : String)
deriving DecidableEq

/-- `http_mksession` (`runtime.rs:159-163` with the store modelled
from the spec): allocates a fresh session token; always succeeds. -/
def http_mksession (st : HttpStore) : Nat × HttpStore :=
  (st.counter,
   { st with sessions := st.counter :: st.sessions,
             counter := st.counter + 1 })

/-- `http_request` (`runtime.rs:165-176`, with `ctx::State`'s store
modelled from the spec): first parses the options (an options failure
is reported before the store is consulted, as in the source); then,
per §4.4, validates that the session exists — failing with
`UnknownSession` — and stores the pending request under a freshly
allocated token. -/
def http_request (st : HttpStore) (s : ErrState) (session : Nat)
    (method url : String) (options : AnyLuaValue) :
    Except HttpErr Nat × HttpStore × ErrState :=
  match RequestOptions.try_from options with
  | .error e =>
      (.error (.InvalidOptions e), st,
       set_error s ("invalid request options: " ++ e))
  | .ok opts =>
      if st.sessions.contains session then
        (.ok st.counter,
         { st with
             requests :=
               (st.counter, ⟨session, method, url, opts⟩) :: st.requests,
             counter := st.counter + 1 },
         s)
      else
        (.error .UnknownSession, st, set_error s "unknown session")

/-- The response mapping returned by a successful send (§4.4). -/
structure Response where
  status : Nat
  headers : List (String × String)
  body : List Nat

/-- `http_send` (`runtime.rs:178-186`, with `ctx::State`'s store
modelled from the spec): looks the token up, failing with
`UnknownRequest` if it was never built or already consumed; otherwise
removes the pending request from the store (single consumption) and
performs the network call (the transport, an external collaborator,
is the explicit `net` argument). -/
def http_send (st : HttpStore) (s : ErrState) (rid : Nat)
    (net : PendingRequest → Except String Response) :
    Except HttpErr Response × HttpStore × ErrState :=
  match st.requests.lookup rid with
  | none => (.error .UnknownRequest, st, set_error s "unknown request")
  | some req =>
      let st' :=
        { st with requests := st.requests.filter (fun kv => kv.1 != rid) }
      match net req with
      | .ok resp => (.ok resp, st', s)
      | .error e => (.error (.TransportError e), st', set_error s e)

/-- After removing every pair keyed `rid`, the lookup of `rid` fails. -/
theorem lookup_filter_ne (l : List (Nat × PendingRequest)) (rid : Nat) :
    (l.filter (fun kv => kv.1 != rid)).lookup rid = none := by
  induction l with
  | nil => rfl
  | cons kv rest ih =>
    rcases kv with ⟨k, v⟩
    rcases eq_or_ne k rid with h | h
    · simpa [List.filter_cons, h] using ih
    · have hbk : (rid == k) = false := by
        simp [Ne.symm h]
      simp only [List.filter_cons, bne_iff_ne, ne_eq, h,
        not_false_eq_true, decide_True, if_true, List.lookup, hbk]
      exact ih

/-- `http_send` on a token absent from the store fails with
`UnknownRequest`, leaving the store unchanged and recording the
failure in the Error Slot. -/
theorem http_send_not_found (st : HttpStore) (s : ErrState) (rid : Nat)
    (net : PendingRequest → Except String Response)
    (h : st.requests.lookup rid = none) :
    http_send st s rid net =
      (.error .UnknownRequest, st, set_error s "unknown request") := by
  simp [http_send, h]

/-- C2: if the options parse but the session token is unknown,
`http_request` fails with `UnknownSession`; if the options fail to
parse it fails with `InvalidOptions`; and when the session exists and
the options parse it succeeds with a freshly allocated request token —
one not previously present in the store — under which the pending
request is now stored. -/
theorem C2_http_request (st : HttpStore) (s : ErrState) (sid : Nat)
    (method url : String) (options : AnyLuaValue) (hwf : st.WF) :
    (∀ e, RequestOptions.try_from options = .error e →
      (http_request st s sid method url options).1 =
        .error (.InvalidOptions e)) ∧
    (∀ opts, RequestOptions.try_from options = .ok opts →
      sid ∉ st.sessions →
      (http_request st s sid method url options).1 =
        .error .UnknownSession) ∧
    (∀ opts, RequestOptions.try_from options = .ok opts →
      sid ∈ st.sessions →
      ∃ rid,
        (http_request st s sid method url options).1 = .ok rid ∧
        rid ∉ st.requests.map Prod.fst ∧
        (rid, ⟨sid, method, url, opts⟩) ∈
          (http_request st s sid method url options).2.1.requests) := by
  refine ⟨?_, ?_, ?_⟩
  · intro e he
    simp [http_request, he]
  · intro opts hopts hsid
    simp [http_request, hopts, hsid]
  · intro opts hopts hsid
    refine ⟨st.counter, ?_, ?_, ?_⟩
    · simp [http_request, hopts, hsid]
    · intro hmem
      exact absurd (hwf st.counter hmem) (lt_irrefl _)
    · simp [http_request, hopts, hsid]

/-- Closed witness for C2: in a store holding session `0` and no
requests, building a request with empty options yields token `1`. -/
theorem C2_http_request_witness :
    ∃ rid,
      (http_request ⟨[0], [], 1⟩ ⟨none⟩ 0 "GET" "http://example"
        (.LuaArray [])).1 = .ok rid ∧
      rid ∉ ([] : List (Nat × PendingRequest)).map Prod.fst ∧
      (rid, ⟨0, "GET", "http://example", ⟨[]⟩⟩) ∈
        (http_request ⟨[0], [], 1⟩ ⟨none⟩ 0 "GET" "http://example"
          (.LuaArray [])).2.1.requests :=
  (C2_http_request ⟨[0], [], 1⟩ ⟨none⟩ 0 "GET" "http://example"
      (.LuaArray []) (fun k hk => by simp at hk)).2.2
    ⟨[]⟩ rfl (by simp)

/-- C3: sending consumes a pending request exactly once: `http_send`
on a token that is not in the store (never built, or already consumed)
fails with `UnknownRequest` and leaves the store unchanged; on a
stored token, the first send removes the request, and a second send on
the same token fails with `UnknownRequest` rather than resending. -/
theorem C3_http_send (st : HttpStore) (s s' : ErrState) (rid : Nat)
    (net net' : PendingRequest → Except String Response) :
    (st.requests.lookup rid = none →
      (http_send st s rid net).1 = .error .UnknownRequest ∧
      (http_send st s rid net).2.1 = st) ∧
    (∀ req, st.requests.lookup rid = some req →
      (http_send st s rid net).2.1.requests.lookup rid = none ∧
      (http_send (http_send st s rid net).2.1 s' rid net').1 =
        .error .UnknownRequest) := by
  constructor
  · intro hnone
    rw [http_send_not_found st s rid net hnone]
    exact ⟨rfl, rfl⟩
  · intro req hsome
    have hsend :
        (http_send st s rid net).2.1.requests =
          st.requests.filter (fun kv => kv.1 != rid) := by
      simp only [http_send, hsome]
      match net req with
      | .ok resp => rfl
      | .error e => rfl
    have hnone :
        (http_send st s rid net).2.1.requests.lookup rid = none := by
      rw [hsend]
      exact lookup_filter_ne st.requests rid
    refine ⟨hnone, ?_⟩
    rw [http_send_not_found _ s' rid net' hnone]

/-- Closed witness for C3: with one stored request under token `0`,
the first send consumes it and the second send fails with
`UnknownRequest`. -/
theorem C3_http_send_witness :
    (http_send ⟨[0], [(0, ⟨0, "GET", "u", ⟨[]⟩⟩)], 1⟩ ⟨none⟩ 0
        (fun _ => .ok ⟨200, [], []⟩)).2.1.requests.lookup 0 = none ∧
    (http_send
        (http_send ⟨[0], [(0, ⟨0, "GET", "u", ⟨[]⟩⟩)], 1⟩ ⟨none⟩ 0
          (fun _ => .ok ⟨200, [], []⟩)).2.1 ⟨none⟩ 0
        (fun _ => .ok ⟨200, [], []⟩)).1 = .error .UnknownRequest :=
  (C3_http_send ⟨[0], [(0, ⟨0, "GET", "u", ⟨[]⟩⟩)], 1⟩ ⟨none⟩ ⟨none⟩ 0
      (fun _ => .ok ⟨200, [], []⟩) (fun _ => .ok ⟨200, [], []⟩)).2
    ⟨0, "GET", "u", ⟨[]⟩⟩ rfl

/-! ## ldap_search_bind -/

/-- An LDAP search entry; `SearchEntry::construct` exposes its
distinguished name. -/
structure SearchEntry where
  dn : String

/-- The LDAP server as the handlers see it (an external collaborator
behind the `ldap3` crate): connection outcome, the outcome of a simple
bind with given DN and password (`error` for a fatal protocol fault,
`ok b` with `b` the value of `result.success().is_ok()`), the outcome
of a subtree search with given base and filter, and the crate's DN
escaping. -/
structure LdapEnv where
  connect : String → Except String Unit
  simpleBind : String → String → Except String Bool
  search : String → String → Except String (List SearchEntry)
  dnEscape : String → String

/-- `ldap_search_bind` (`runtime.rs:241-291`): connects, binds as the
search user, fails outright (without writing the Error Slot) if that
bind is rejected, searches the subtree for `uid=<escaped user>`, and —
taking the first entry only — attempts a second bind as that entry's
DN, returning its success as a boolean; an empty search result returns
`Ok(false)`.  The third component of the result is the list of
`simple_bind` calls performed, as (DN, password) pairs in order. -/
def ldap_search_bind (env : LdapEnv) (s : ErrState)
    (url searchUser searchPw baseDn user password : String) :
    Except String Bool × ErrState × List (String × String) :=
  match env.connect url with
  | .error e => (.error e, set_error s e, [])
  | .ok _ =>
    match env.simpleBind searchUser searchPw with
    | .error e => (.error e, set_error s e, [(searchUser, searchPw)])
    | .ok ok1 =>
      if !ok1 then
        (.error "login with search user failed", s,
         [(searchUser, searchPw)])
      else
        match env.search baseDn ("uid=" ++ env.dnEscape user) with
        | .error e => (.error e, set_error s e, [(searchUser, searchPw)])
        | .ok entries =>
          match entries with
          | [] => (.ok false, s, [(searchUser, searchPw)])
          | entry :: _ =>
            match env.simpleBind entry.dn password with
            | .error e =>
                (.error e, set_error s e,
                 [(searchUser, searchPw), (entry.dn, password)])
            | .ok ok2 =>
                (.ok ok2, s,
                 [(searchUser, searchPw), (entry.dn, password)])

/-- C8: when the search-user bind succeeds and the subtree search
returns zero entries, `ldap_search_bind` returns `false` as a normal
result (Error Slot untouched) having performed exactly one bind — no
third bind attempt; and when entries exist, the second credentialed
bind uses exactly the first entry's distinguished name. -/
theorem C8_ldap_search_bind (env : LdapEnv) (s : ErrState)
    (url su sp bd u pw : String)
    (hc : env.connect url = .ok ())
    (hb : env.simpleBind su sp = .ok true) :
    (env.search bd ("uid=" ++ env.dnEscape u) = .ok [] →
      ldap_search_bind env s url su sp bd u pw =
        (.ok false, s, [(su, sp)])) ∧
    (∀ e rest ok2, env.search bd ("uid=" ++ env.dnEscape u) = .ok (e :: rest) →
      env.simpleBind e.dn pw = .ok ok2 →
      ldap_search_bind env s url su sp bd u pw =
        (.ok ok2, s, [(su, sp), (e.dn, pw)])) := by
  constructor
  · intro hsearch
    simp [ldap_search_bind, hc, hb, hsearch]
  · intro e rest ok2 hsearch hbind
    simp [ldap_search_bind, hc, hb, hsearch, hbind]

/-- Closed witness for C8: a server that accepts the search bind and
returns no entries yields `Ok(false)` after a single bind. -/
theorem C8_ldap_search_bind_witness :
    ldap_search_bind
        ⟨fun _ => .ok (), fun _ _ => .ok true, fun _ _ => .ok [],
         fun t => t⟩
        ⟨none⟩ "url" "su" "sp" "bd" "usr" "pw" =
      (.ok false, ⟨none⟩, [("su", "sp")]) :=
  (C8_ldap_search_bind
      ⟨fun _ => .ok (), fun _ _ => .ok true, fun _ _ => .ok [],
       fun t => t⟩
      ⟨none⟩ "url" "su" "sp" "bd" "usr" "pw" rfl rfl).1 rfl

end Badtouch
